import Mathlib

/-!
Verification of the I/O core of this repository (vm/src/stdlib/io.rs):
the mode-string parser, the in-memory cursor buffer backing StringIO and
BytesIO, the base-stream close behavior, the text-layer write, and the
open factory.

Conventions of the shallow embedding:
* Rust byte vectors (Vec<u8>) are Lean `List Nat` values (each element a byte).
* Rust strings are `List Char` where codepoints matter and `List Nat`
  (their UTF-8 bytes) where only the bytes matter.
* Machine integers (u64, usize, i64) are `Nat` / `Int`; no operation here
  approaches overflow, which the original code also assumes.
* Fallible Rust functions returning Result/Option become `Except`/`Option`.
* Stateful methods take the state and return it next to the result.
* Names ending in the letters I-O are spelled with a lowercase o
  (e.g. `BufferedIo` for the Rust struct named BufferedIO).
-/

/-- The ASCII apostrophe, written numerically. -/
def squote : String := String.singleton (Char.ofNat 39)

/-- The Rust null sentinel character used by split_mode_string. -/
def nullChar : Char := Char.ofNat 0

/-- Message produced by the Rust code via format: invalid mode: quoted string. -/
def invalid_mode_msg (orig : List Char) : String :=
  "invalid mode: " ++ squote ++ String.mk orig ++ squote

/-- Scan loop of split_mode_string (io.rs lines 824-858): walks the mode
string left to right keeping the last access char, last type char and a
plus-seen flag, rejecting duplicates, conflicts and unknown characters. -/
def sms_loop (orig : List Char) : List Char → Char → Char → Bool →
    Except String (Char × Char × Bool)
  | [], mode, typ, plus => Except.ok (mode, typ, plus)
  | ch :: rest, mode, typ, plus =>
    if ch = '+' then
      if plus then Except.error (invalid_mode_msg orig)
      else sms_loop orig rest mode typ true
    else if ch = 't' ∨ ch = 'b' then
      if typ ≠ nullChar then
        if typ = ch then Except.error (invalid_mode_msg orig)
        else Except.error ("can" ++ squote ++ "t have text and binary mode at once")
      else sms_loop orig rest mode ch plus
    else if ch = 'a' ∨ ch = 'r' ∨ ch = 'w' then
      if mode ≠ nullChar then
        if mode = ch then Except.error (invalid_mode_msg orig)
        else Except.error "must have exactly one of create/read/write/append mode"
      else sms_loop orig rest ch typ plus
    else Except.error (invalid_mode_msg orig)

/-- split_mode_string (io.rs lines 819-874): parses an open-mode string into
the (access possibly suffixed with plus, type) pair, defaulting the type
to text. -/
def split_mode_string (mode_string : List Char) :
    Except String (List Char × List Char) :=
  match sms_loop mode_string mode_string nullChar nullChar false with
  | Except.error e => Except.error e
  | Except.ok (mode, typ, plus) =>
    if mode = nullChar then
      Except.error
        "Must have exactly one of create/read/write/append mode and at most one plus"
    else
      let m := if plus then [mode, '+'] else [mode]
      let t := if typ = nullChar then 't' else typ
      Except.ok (m, [t])

/-! ## UTF-8 encoding and validation

The Rust code relies on the standard library for UTF-8: String::into_bytes
produces the UTF-8 encoding of a string, and str::from_utf8 / read_line
validate byte sequences, reporting with valid_up_to the length of the
longest valid prefix. The following definitions embed those library
routines: the encoder writes each scalar value with the usual arithmetic
layout, and the scanner follows the standard validation table (lead byte
ranges, continuation bytes 128-191, the tightened second-byte ranges for
lead bytes 224, 237, 240 and 244 that exclude overlong forms and
surrogates). -/

/-- UTF-8 encoding of one scalar value, written arithmetically. -/
def utf8EncodeScalar (n : Nat) : List Nat :=
  if n < 128 then [n]
  else if n < 2048 then [192 + n / 64, 128 + n % 64]
  else if n < 65536 then [224 + n / 4096, 128 + n / 64 % 64, 128 + n % 64]
  else [240 + n / 262144, 128 + n / 4096 % 64, 128 + n / 64 % 64, 128 + n % 64]

/-- UTF-8 encoding of one character (what Rust String stores per char). -/
def utf8EncodeChar (c : Char) : List Nat := utf8EncodeScalar c.toNat

/-- UTF-8 encoding of a whole string (Rust String::into_bytes / as_bytes). -/
def utf8Encode (s : List Char) : List Nat := s.flatMap utf8EncodeChar

/-- A UTF-8 continuation byte. -/
def isContByte (b : Nat) : Prop := 128 ≤ b ∧ b < 192

instance (b : Nat) : Decidable (isContByte b) := by
  unfold isContByte; infer_instance

/-- Allowed second byte after the given lead byte of a three-byte sequence
(lead 224 excludes overlong forms, lead 237 excludes surrogates). -/
def contOk3 (b0 b1 : Nat) : Prop :=
  (b0 = 224 ∧ 160 ≤ b1 ∧ b1 < 192) ∨
  (b0 ≠ 224 ∧ b0 = 237 ∧ 128 ≤ b1 ∧ b1 < 160) ∨
  (b0 ≠ 224 ∧ b0 ≠ 237 ∧ 128 ≤ b1 ∧ b1 < 192)

instance (b0 b1 : Nat) : Decidable (contOk3 b0 b1) := by
  unfold contOk3; infer_instance

/-- Allowed second byte after the given lead byte of a four-byte sequence
(lead 240 excludes overlong forms, lead 244 caps at scalar 1114111). -/
def contOk4 (b0 b1 : Nat) : Prop :=
  (b0 = 240 ∧ 144 ≤ b1 ∧ b1 < 192) ∨
  (b0 ≠ 240 ∧ b0 = 244 ∧ 128 ≤ b1 ∧ b1 < 144) ∨
  (b0 ≠ 240 ∧ b0 ≠ 244 ∧ 128 ≤ b1 ∧ b1 < 192)

instance (b0 b1 : Nat) : Decidable (contOk4 b0 b1) := by
  unfold contOk4; infer_instance

mutual

/-- The standard UTF-8 validation scan: returns the byte length of the
longest valid prefix (what Rust reports as valid_up_to) together with the
number of characters in that prefix (what chars().count() returns on the
decoded prefix). -/
def utf8Scan : List Nat → Nat × Nat
  | [] => (0, 0)
  | b0 :: rest =>
    if b0 < 128 then
      let r := utf8Scan rest
      (r.1 + 1, r.2 + 1)
    else if b0 < 194 then (0, 0)
    else if b0 < 224 then utf8ScanTwo rest
    else if b0 < 240 then utf8ScanThree b0 rest
    else if b0 < 245 then utf8ScanFour b0 rest
    else (0, 0)

/-- Continuation of the scan after a two-byte lead. -/
def utf8ScanTwo : List Nat → Nat × Nat
  | b1 :: rest2 =>
    if isContByte b1 then
      let r := utf8Scan rest2
      (r.1 + 2, r.2 + 1)
    else (0, 0)
  | [] => (0, 0)

/-- Continuation of the scan after a three-byte lead. -/
def utf8ScanThree (b0 : Nat) : List Nat → Nat × Nat
  | b1 :: b2 :: rest3 =>
    if contOk3 b0 b1 ∧ isContByte b2 then
      let r := utf8Scan rest3
      (r.1 + 3, r.2 + 1)
    else (0, 0)
  | _ => (0, 0)

/-- Continuation of the scan after a four-byte lead. -/
def utf8ScanFour (b0 : Nat) : List Nat → Nat × Nat
  | b1 :: b2 :: b3 :: rest4 =>
    if contOk4 b0 b1 ∧ isContByte b2 ∧ isContByte b3 then
      let r := utf8Scan rest4
      (r.1 + 4, r.2 + 1)
    else (0, 0)
  | _ => (0, 0)

end

/-- A byte list is valid UTF-8 exactly when the scan consumes all of it
(Rust str::from_utf8 succeeding). -/
def validUtf8 (l : List Nat) : Prop := (utf8Scan l).1 = l.length

instance (l : List Nat) : Decidable (validUtf8 l) := by
  unfold validUtf8; infer_instance

/-- Number of characters of a decoded byte list (chars().count() on the
string str::from_utf8 returns; meaningful when the list is valid UTF-8). -/
def utf8CountChars (l : List Nat) : Nat := (utf8Scan l).2

/-- byte_count (io.rs lines 26-28): flattens the optional byte-count
argument, defaulting to -1. -/
def byte_count (bytes : Option Int) : Int := bytes.getD (-1)

/-! ## The in-memory cursor buffer (struct BufferedIO, io.rs lines 32-101)

A Rust Cursor over Vec of u8: the byte vector together with a cursor
position. The position may exceed the vector length after a seek; reads
then see an empty remainder, and writes first pad the vector with zeros
up to the position (the semantics of the standard Cursor). -/

structure BufferedIo where
  data : List Nat
  position : Nat
deriving DecidableEq

/-- The slice the cursor exposes for reading: everything from
min(position, length) to the end (Cursor::remaining_slice). -/
def BufferedIo.remaining (st : BufferedIo) : List Nat :=
  st.data.drop (min st.position st.data.length)

/-- BufferedIO::write (io.rs lines 42-49): write_all of the data at the
cursor (padding with zeros when the position is past the end, overwriting
then extending), advancing the position and returning the length written.
Writing to a Vec cannot fail, so the Err arm of the source is the
unreachable none. -/
def BufferedIo.write (st : BufferedIo) (data : List Nat) :
    Option (Nat × BufferedIo) :=
  let pos := st.position
  let padded :=
    if st.data.length < pos then st.data ++ List.replicate (pos - st.data.length) 0
    else st.data
  some (data.length,
    ⟨padded.take pos ++ data ++ padded.drop (pos + data.length),
     pos + data.length⟩)

/-- BufferedIO::getvalue (io.rs lines 52-54): the entire contents,
position untouched. -/
def BufferedIo.getvalue (st : BufferedIo) : List Nat := st.data

/-- BufferedIO::seek (io.rs lines 57-62): SeekFrom::Start, which always
succeeds and returns the offset. -/
def BufferedIo.seek (st : BufferedIo) (offset : Nat) :
    Option (Nat × BufferedIo) :=
  some (offset, ⟨st.data, offset⟩)

/-- BufferedIO::read (io.rs lines 65-87): for bytes strictly positive,
read up to that many bytes through a Take of a cloned cursor; otherwise
read_to_end. Both advance the position by the number of bytes produced;
reading from an in-memory vector cannot fail, so the Err arms of the
source are the unreachable none. -/
def BufferedIo.read (st : BufferedIo) (bytes : Int) :
    Option (List Nat × BufferedIo) :=
  if 0 < bytes then
    let buffer := st.remaining.take bytes.toNat
    some (buffer, ⟨st.data, st.position + buffer.length⟩)
  else
    let buffer := st.remaining
    some (buffer, ⟨st.data, st.position + buffer.length⟩)

/-- BufferedIO::tell (io.rs lines 89-91). -/
def BufferedIo.tell (st : BufferedIo) : Nat := st.position

/-- BufferedIO::readline (io.rs lines 93-100): read_line reads bytes up to
and including the next newline byte (or to the end), advancing the cursor,
then validates them as UTF-8; on invalid UTF-8 it reports an error (the
cursor has already advanced), which the source maps to None. -/
def BufferedIo.readline (st : BufferedIo) : Option (List Nat) × BufferedIo :=
  let avail := st.remaining
  let line :=
    match avail.findIdx? (fun b => b == 10) with
    | some i => avail.take (i + 1)
    | none => avail
  (if validUtf8 line then some line else none,
   ⟨st.data, st.position + line.length⟩)

/-! ## StringIO and BytesIO (io.rs lines 103-321)

Both hold RefCell of Option of BufferedIO; the option is none exactly when
the stream is closed, and every operation first runs the buffer accessor,
which fails on a closed stream. Operations return the Except result next
to the possibly-updated handle state. -/

/-- The closed-stream message of the buffer accessors
(io.rs lines 117-124 and 237-244). -/
def closed_msg : String := "I/O operation on closed file."

/-- The state of a BytesIO handle: some buffer, or none once closed. -/
abbrev PyBytesIo := Option BufferedIo

/-- The state of a StringIO handle: some buffer, or none once closed. -/
abbrev PyStringIo := Option BufferedIo

/-- PyBytesIORef::write (io.rs lines 246-252). -/
def pybytesio_write (st : PyBytesIo) (data : List Nat) :
    Except String Nat × PyBytesIo :=
  match st with
  | none => (Except.error closed_msg, none)
  | some b =>
    match b.write data with
    | some (value, b2) => (Except.ok value, some b2)
    | none => (Except.error "Error Writing Bytes", some b)

/-- PyBytesIORef::getvalue (io.rs lines 254-256). -/
def pybytesio_getvalue (st : PyBytesIo) :
    Except String (List Nat) × PyBytesIo :=
  match st with
  | none => (Except.error closed_msg, none)
  | some b => (Except.ok b.getvalue, some b)

/-- PyBytesIORef::read (io.rs lines 261-266). -/
def pybytesio_read (st : PyBytesIo) (bytes : Option Int) :
    Except String (List Nat) × PyBytesIo :=
  match st with
  | none => (Except.error closed_msg, none)
  | some b =>
    match b.read (byte_count bytes) with
    | some (value, b2) => (Except.ok value, some b2)
    | none => (Except.error "Error Retrieving Value", some b)

/-- PyBytesIORef::seek (io.rs lines 269-274). -/
def pybytesio_seek (st : PyBytesIo) (offset : Nat) :
    Except String Nat × PyBytesIo :=
  match st with
  | none => (Except.error closed_msg, none)
  | some b =>
    match b.seek offset with
    | some (value, b2) => (Except.ok value, some b2)
    | none => (Except.error "Error Performing Operation", some b)

/-- PyBytesIORef::tell (io.rs lines 280-282). -/
def pybytesio_tell (st : PyBytesIo) : Except String Nat × PyBytesIo :=
  match st with
  | none => (Except.error closed_msg, none)
  | some b => (Except.ok b.tell, some b)

/-- PyBytesIORef::readline (io.rs lines 284-289): the line string turned
back into its bytes. -/
def pybytesio_readline (st : PyBytesIo) :
    Except String (List Nat) × PyBytesIo :=
  match st with
  | none => (Except.error closed_msg, none)
  | some b =>
    match b.readline with
    | (some line, b2) => (Except.ok line, some b2)
    | (none, b2) => (Except.error "Error Performing Operation", some b2)

/-- PyBytesIORef::truncate (io.rs lines 291-296): Vec::truncate to the
given size (defaulting to the current position); never grows the vector
and never moves the position. -/
def pybytesio_truncate (st : PyBytesIo) (size : Option Nat) :
    Except String Unit × PyBytesIo :=
  match st with
  | none => (Except.error closed_msg, none)
  | some b =>
    let sz := size.getD b.tell
    (Except.ok (), some ⟨b.data.take sz, b.position⟩)

/-- PyBytesIORef::closed (io.rs lines 298-300). -/
def pybytesio_closed (st : PyBytesIo) : Bool := st.isNone

/-- PyBytesIORef::close (io.rs lines 302-304): replaces the buffer with
none; infallible, also on an already-closed handle. -/
def pybytesio_close (_st : PyBytesIo) : PyBytesIo := none

/-- bytes_io_new (io.rs lines 307-321): a fresh buffer over the optional
initial bytes, cursor at zero. -/
def pybytesio_new (object : Option (List Nat)) : PyBytesIo :=
  some ⟨object.getD [], 0⟩

/-- PyStringIORef::write (io.rs lines 127-134); the argument is the UTF-8
bytes of the Python string being written. -/
def pystringio_write (st : PyStringIo) (data : List Nat) :
    Except String Nat × PyStringIo :=
  match st with
  | none => (Except.error closed_msg, none)
  | some b =>
    match b.write data with
    | some (value, b2) => (Except.ok value, some b2)
    | none => (Except.error "Error Writing String", some b)

/-- PyStringIORef::getvalue (io.rs lines 137-142): String::from_utf8 of
the contents, failing on invalid UTF-8. -/
def pystringio_getvalue (st : PyStringIo) :
    Except String (List Nat) × PyStringIo :=
  match st with
  | none => (Except.error closed_msg, none)
  | some b =>
    if validUtf8 b.getvalue then (Except.ok b.getvalue, some b)
    else (Except.error "Error Retrieving Value", some b)

/-- PyStringIORef::read (io.rs lines 159-169): a failed buffer read is
replaced by the empty vector, then decoded, failing on invalid UTF-8. -/
def pystringio_read (st : PyStringIo) (bytes : Option Int) :
    Except String (List Nat) × PyStringIo :=
  match st with
  | none => (Except.error closed_msg, none)
  | some b =>
    match b.read (byte_count bytes) with
    | some (value, b2) =>
      if validUtf8 value then (Except.ok value, some b2)
      else (Except.error "Error Retrieving Value", some b2)
    | none =>
      if validUtf8 [] then (Except.ok [], some b)
      else (Except.error "Error Retrieving Value", some b)

/-- PyStringIORef::seek (io.rs lines 145-150). -/
def pystringio_seek (st : PyStringIo) (offset : Nat) :
    Except String Nat × PyStringIo :=
  match st with
  | none => (Except.error closed_msg, none)
  | some b =>
    match b.seek offset with
    | some (value, b2) => (Except.ok value, some b2)
    | none => (Except.error "Error Performing Operation", some b)

/-- PyStringIORef::tell (io.rs lines 171-173). -/
def pystringio_tell (st : PyStringIo) : Except String Nat × PyStringIo :=
  match st with
  | none => (Except.error closed_msg, none)
  | some b => (Except.ok b.tell, some b)

/-- PyStringIORef::readline (io.rs lines 175-180); the result is the UTF-8
bytes of the returned line string. -/
def pystringio_readline (st : PyStringIo) :
    Except String (List Nat) × PyStringIo :=
  match st with
  | none => (Except.error closed_msg, none)
  | some b =>
    match b.readline with
    | (some line, b2) => (Except.ok line, some b2)
    | (none, b2) => (Except.error "Error Performing Operation", some b2)

/-- PyStringIORef::truncate (io.rs lines 182-187). -/
def pystringio_truncate (st : PyStringIo) (size : Option Nat) :
    Except String Unit × PyStringIo :=
  match st with
  | none => (Except.error closed_msg, none)
  | some b =>
    let sz := size.getD b.tell
    (Except.ok (), some ⟨b.data.take sz, b.position⟩)

/-- PyStringIORef::closed (io.rs lines 189-191). -/
def pystringio_closed (st : PyStringIo) : Bool := st.isNone

/-- PyStringIORef::close (io.rs lines 193-195). -/
def pystringio_close (_st : PyStringIo) : PyStringIo := none

/-- string_io_new (io.rs lines 206-221); the argument is the UTF-8 bytes
of the optional initial string. -/
def pystringio_new (object : Option (List Nat)) : PyStringIo :=
  some ⟨object.getD [], 0⟩

/-! ## The base-stream close (io_base_close, io.rs lines 349-357)

The instance state the function touches is the attribute holding the
closed flag; the flush method is dynamically dispatched, so the embedding
takes its outcome as a parameter. -/

/-- io_base_close: when not closed, call flush, set the closed flag (also
when flush failed), then surface the flush outcome; when already closed,
do nothing and succeed. -/
def io_base_close (closed : Bool) (flushResult : Except String Unit) :
    Bool × Except String Unit :=
  if closed then (closed, Except.ok ())
  else
    (true,
      match flushResult with
      | Except.ok _ => Except.ok ()
      | Except.error e => Except.error e)

/-! ## The text-layer write (text_io_wrapper_write, io.rs lines 760-788)

The wrapper encodes the text, hands the bytes to the inner write (whose
reported byte count is dynamically dispatched, hence a parameter), then
counts the characters of the longest prefix of the reported slice that is
a complete-codepoint boundary: from_utf8 of the slice when it is valid,
otherwise from_utf8 of its valid_up_to prefix. -/

/-- text_io_wrapper_write, given the count of bytes the inner write
reported: the count of codepoints whose encoding lies within that many
bytes of the encoded text. -/
def text_io_wrapper_write (text : List Char) (lenWritten : Nat) : Nat :=
  let bytes := utf8Encode text
  let sliced := bytes.take lenWritten
  if validUtf8 sliced then utf8CountChars sliced
  else utf8CountChars (sliced.take (utf8Scan sliced).1)

/-- Stated from the spec: the number of codepoints of the text whose
complete UTF-8 encoding lies within the first k bytes (the greedy prefix
of characters whose cumulative encoded length fits in k). -/
def specCoveredCodepoints : List Char → Nat → Nat
  | [], _ => 0
  | c :: cs, k =>
    if (utf8EncodeChar c).length ≤ k then
      specCoveredCodepoints cs (k - (utf8EncodeChar c).length) + 1
    else 0

/-- Stated from the spec: the bytes a readline at the given position
should produce, from the position up to and including the next newline
byte, or to the end when none follows. -/
def specLineAt (data : List Nat) (pos : Nat) : List Nat :=
  let avail := data.drop pos
  match avail.findIdx? (fun b => b == 10) with
  | some i => avail.take (i + 1)
  | none => avail

/-! ## FileIO open flags (compute_c_flag, io.rs lines 526-538) -/

/-- libc O_RDONLY (Linux). -/
def O_RDONLY : Nat := 0
/-- libc O_WRONLY (Linux). -/
def O_WRONLY : Nat := 1
/-- libc O_RDWR (Linux). -/
def O_RDWR : Nat := 2
/-- libc O_CREAT (Linux). -/
def O_CREAT : Nat := 64
/-- libc O_EXCL (Linux). -/
def O_EXCL : Nat := 128
/-- libc O_APPEND (Linux). -/
def O_APPEND : Nat := 1024

/-- compute_c_flag: matches only on the first character of the mode
string; an empty string or any unmatched first character gives read-only. -/
def compute_c_flag (mode : List Char) : Nat :=
  match mode with
  | [] => O_RDONLY
  | m :: _ =>
    if m = 'w' then O_WRONLY ||| O_CREAT
    else if m = 'x' then O_WRONLY ||| O_CREAT ||| O_EXCL
    else if m = 'a' then O_APPEND
    else if m = '+' then O_RDWR
    else O_RDONLY

/-! ## The open factory (io_open, io.rs lines 876-944) -/

/-- The buffered decorator io_open selects. -/
inductive BufferedKind
  | writer
  | reader
deriving DecidableEq

/-- Outcome of the open factory: a constructed handle (with or without the
text wrapper), a value error returned to the caller, or a Rust panic
(which never returns to the caller). -/
inductive OpenResult
  | opened (kind : BufferedKind) (textWrapped : Bool)
  | errValue (msg : String)
  | panicked (msg : String)
deriving DecidableEq

/-- Whether the factory outcome is an error value returned to the caller. -/
def OpenResult.isErrValue : OpenResult → Bool
  | OpenResult.errValue _ => true
  | _ => false

/-- The message of the unimplemented macro invocation for append mode. -/
def unimplemented_append_msg : String :=
  squote ++ "a" ++ squote ++ " mode is not yet implemented"

/-- io_open: parse the mode (errors become value errors for the caller),
select the buffered decorator from the first character of the parsed
access string (append hits the unimplemented panic), then wrap in the
text wrapper when the parsed type is text. The unwrap and unreachable
arms cannot fire for parser output and are embedded as panics. -/
def io_open_model (mode_string : List Char) : OpenResult :=
  match split_mode_string mode_string with
  | Except.error e => OpenResult.errValue e
  | Except.ok (mode, typ) =>
    match mode with
    | [] => OpenResult.panicked "unwrap on empty mode"
    | m :: _ =>
      if m = 'w' then
        match typ with
        | [] => OpenResult.panicked "unwrap on empty type"
        | t :: _ =>
          if t = 't' then OpenResult.opened BufferedKind.writer true
          else if t = 'b' then OpenResult.opened BufferedKind.writer false
          else OpenResult.panicked "unreachable"
      else if m = 'r' then
        match typ with
        | [] => OpenResult.panicked "unwrap on empty type"
        | t :: _ =>
          if t = 't' then OpenResult.opened BufferedKind.reader true
          else if t = 'b' then OpenResult.opened BufferedKind.reader false
          else OpenResult.panicked "unreachable"
      else OpenResult.panicked unimplemented_append_msg

/-! # Theorems -/

/-- C2: each of the 18 well-formed mode strings (access letter from r, w, a,
then optionally a plus, then optionally a type letter t or b) parses to the
pair of the access letter (with the plus appended exactly when present) and
the type letter, the type defaulting to t when omitted. -/
theorem split_mode_string_valid_modes :
    split_mode_string ['r'] = Except.ok (['r'], ['t']) ∧
    split_mode_string ['r', '+'] = Except.ok (['r', '+'], ['t']) ∧
    split_mode_string ['r', 't'] = Except.ok (['r'], ['t']) ∧
    split_mode_string ['r', 'b'] = Except.ok (['r'], ['b']) ∧
    split_mode_string ['r', '+', 't'] = Except.ok (['r', '+'], ['t']) ∧
    split_mode_string ['r', '+', 'b'] = Except.ok (['r', '+'], ['b']) ∧
    split_mode_string ['w'] = Except.ok (['w'], ['t']) ∧
    split_mode_string ['w', '+'] = Except.ok (['w', '+'], ['t']) ∧
    split_mode_string ['w', 't'] = Except.ok (['w'], ['t']) ∧
    split_mode_string ['w', 'b'] = Except.ok (['w'], ['b']) ∧
    split_mode_string ['w', '+', 't'] = Except.ok (['w', '+'], ['t']) ∧
    split_mode_string ['w', '+', 'b'] = Except.ok (['w', '+'], ['b']) ∧
    split_mode_string ['a'] = Except.ok (['a'], ['t']) ∧
    split_mode_string ['a', '+'] = Except.ok (['a', '+'], ['t']) ∧
    split_mode_string ['a', 't'] = Except.ok (['a'], ['t']) ∧
    split_mode_string ['a', 'b'] = Except.ok (['a'], ['b']) ∧
    split_mode_string ['a', '+', 't'] = Except.ok (['a', '+'], ['t']) ∧
    split_mode_string ['a', '+', 'b'] = Except.ok (['a', '+'], ['b']) := by
  repeat constructor

/-- C3: the malformed mode strings of the claim each produce exactly the
error message the claim lists (the empty string, bare type letters, mixed
text and binary, two access letters, and a duplicated plus). -/
theorem split_mode_string_error_messages :
    split_mode_string [] =
      Except.error
        "Must have exactly one of create/read/write/append mode and at most one plus" ∧
    split_mode_string ['b'] =
      Except.error
        "Must have exactly one of create/read/write/append mode and at most one plus" ∧
    split_mode_string ['t'] =
      Except.error
        "Must have exactly one of create/read/write/append mode and at most one plus" ∧
    split_mode_string ['r', 'b', 't'] =
      Except.error ("can" ++ squote ++ "t have text and binary mode at once") ∧
    split_mode_string ['r', 'w', 'b'] =
      Except.error "must have exactly one of create/read/write/append mode" ∧
    split_mode_string ['a', '+', '+'] =
      Except.error ("invalid mode: " ++ squote ++ "a++" ++ squote) := by
  repeat constructor

/-- The slice the cursor exposes equals the plain drop at the position:
when the position is past the end both sides are empty. -/
theorem bufferedio_remaining_eq_drop (st : BufferedIo) :
    st.remaining = st.data.drop st.position := by
  unfold BufferedIo.remaining
  rcases Nat.le_total st.position st.data.length with h | h
  · rw [Nat.min_eq_left h]
  · rw [Nat.min_eq_right h, List.drop_eq_nil_of_le (Nat.le_refl _),
      List.drop_eq_nil_of_le h]

/-- C1 (amended): BufferedIO::read never fails; with a byte count of zero
or less it returns all bytes from the position to the end (so the claimed
at-most-n bound fails at n equal to zero, see the counterexample), with a
positive count it returns at most that many bytes starting at the
position, and in every case the position advances by exactly the number
of bytes returned. -/
theorem bufferedio_read_behavior (st : BufferedIo) (n : Int) :
    BufferedIo.read st n =
      some ((if 0 < n then (st.data.drop st.position).take n.toNat
             else st.data.drop st.position),
        ⟨st.data,
         st.position + (if 0 < n then (st.data.drop st.position).take n.toNat
             else st.data.drop st.position).length⟩) := by
  by_cases h : 0 < n <;>
    simp [BufferedIo.read, bufferedio_remaining_eq_drop, h]

/-- C1 counterexample: the claim says a read with byte count zero returns
at most zero bytes; on a one-byte buffer at position zero the code returns
that byte (the read-all branch handles every non-positive count). -/
theorem bufferedio_read_zero_counterexample :
    BufferedIo.read ⟨[1], 0⟩ 0 = some ([1], ⟨[1], 1⟩) ∧
    ¬ (List.length [1] ≤ (0 : Int).toNat) := by
  exact ⟨rfl, by decide⟩

/-- C5: the base close sets the closed flag whenever it runs (leaving it
set when it was already set); on a stream not yet closed it surfaces the
flush outcome (so a flush failure is returned after the flag is set),
and on an already-closed stream it does nothing and succeeds. -/
theorem io_base_close_behavior (closed : Bool) (flushResult : Except String Unit) :
    io_base_close closed flushResult =
      (true, if closed then Except.ok () else flushResult) := by
  cases closed <;> cases flushResult <;> rfl

/-- C6: after close on a BytesIO or StringIO handle, read, write, seek,
tell, readline, truncate and getvalue all fail with the closed-file
message and leave the handle in its closed state; the closed query
succeeds with true; and a second close succeeds (close is infallible)
and leaves the handle closed. -/
theorem closed_stream_operations_fail (stB : PyBytesIo) (stS : PyStringIo)
    (data : List Nat) (n : Option Int) (off : Nat) (sz : Option Nat) :
    pybytesio_read (pybytesio_close stB) n = (Except.error closed_msg, pybytesio_close stB) ∧
    pybytesio_write (pybytesio_close stB) data = (Except.error closed_msg, pybytesio_close stB) ∧
    pybytesio_seek (pybytesio_close stB) off = (Except.error closed_msg, pybytesio_close stB) ∧
    pybytesio_tell (pybytesio_close stB) = (Except.error closed_msg, pybytesio_close stB) ∧
    pybytesio_readline (pybytesio_close stB) = (Except.error closed_msg, pybytesio_close stB) ∧
    pybytesio_truncate (pybytesio_close stB) sz = (Except.error closed_msg, pybytesio_close stB) ∧
    pybytesio_getvalue (pybytesio_close stB) = (Except.error closed_msg, pybytesio_close stB) ∧
    pybytesio_closed (pybytesio_close stB) = true ∧
    pybytesio_close (pybytesio_close stB) = pybytesio_close stB ∧
    pystringio_read (pystringio_close stS) n = (Except.error closed_msg, pystringio_close stS) ∧
    pystringio_write (pystringio_close stS) data = (Except.error closed_msg, pystringio_close stS) ∧
    pystringio_seek (pystringio_close stS) off = (Except.error closed_msg, pystringio_close stS) ∧
    pystringio_tell (pystringio_close stS) = (Except.error closed_msg, pystringio_close stS) ∧
    pystringio_readline (pystringio_close stS) = (Except.error closed_msg, pystringio_close stS) ∧
    pystringio_truncate (pystringio_close stS) sz = (Except.error closed_msg, pystringio_close stS) ∧
    pystringio_getvalue (pystringio_close stS) = (Except.error closed_msg, pystringio_close stS) ∧
    pystringio_closed (pystringio_close stS) = true ∧
    pystringio_close (pystringio_close stS) = pystringio_close stS := by
  repeat constructor

/-- C7 counterexample: writing the bytes 1,2,3,4 to a fresh in-memory
buffer leaves the cursor at the end, so an immediate read-all returns the
empty byte string, not the bytes written. -/
theorem bytesio_roundtrip_without_seek_counterexample :
    (pybytesio_read (pybytesio_write (pybytesio_new none) [1, 2, 3, 4]).2
        (some (-1))).1 = Except.ok ([] : List Nat) ∧
    Except.ok ([] : List Nat) ≠ (Except.ok [1, 2, 3, 4] : Except String (List Nat)) := by
  exact ⟨rfl, by simp⟩

/-- C7 (amended): writing the bytes 1,2,3,4 to a fresh in-memory buffer,
seeking back to the start, then reading with a count of -1 returns
exactly the bytes 1,2,3,4. -/
theorem bytesio_roundtrip_with_seek :
    (pybytesio_read
        (pybytesio_seek (pybytesio_write (pybytesio_new none) [1, 2, 3, 4]).2 0).2
        (some (-1))).1 = Except.ok [1, 2, 3, 4] := rfl


theorem utf8Scan_ascii (b0 : Nat) (rest : List Nat) (h : b0 < 128) :
    utf8Scan (b0 :: rest) = ((utf8Scan rest).1 + 1, (utf8Scan rest).2 + 1) := by
  rw [utf8Scan, if_pos h]

theorem utf8Scan_bad_lead (b0 : Nat) (rest : List Nat) (h1 : ¬ b0 < 128)
    (h2 : b0 < 194) : utf8Scan (b0 :: rest) = (0, 0) := by
  rw [utf8Scan, if_neg h1, if_pos h2]

theorem utf8Scan_two (b0 b1 : Nat) (rest2 : List Nat) (h1 : ¬ b0 < 128)
    (h2 : ¬ b0 < 194) (h3 : b0 < 224) (hc : isContByte b1) :
    utf8Scan (b0 :: b1 :: rest2) =
      ((utf8Scan rest2).1 + 2, (utf8Scan rest2).2 + 1) := by
  rw [utf8Scan, if_neg h1, if_neg h2, if_pos h3, utf8ScanTwo, if_pos hc]

theorem utf8Scan_two_notcont (b0 b1 : Nat) (rest2 : List Nat) (h1 : ¬ b0 < 128)
    (h2 : ¬ b0 < 194) (h3 : b0 < 224) (hc : ¬ isContByte b1) :
    utf8Scan (b0 :: b1 :: rest2) = (0, 0) := by
  rw [utf8Scan, if_neg h1, if_neg h2, if_pos h3, utf8ScanTwo, if_neg hc]

theorem utf8Scan_two_short (b0 : Nat) (h1 : ¬ b0 < 128) (h2 : ¬ b0 < 194)
    (h3 : b0 < 224) : utf8Scan [b0] = (0, 0) := by
  rw [utf8Scan, if_neg h1, if_neg h2, if_pos h3, utf8ScanTwo]

theorem utf8Scan_three (b0 b1 b2 : Nat) (rest3 : List Nat) (h1 : ¬ b0 < 128)
    (h2 : ¬ b0 < 194) (h3 : ¬ b0 < 224) (h4 : b0 < 240)
    (hc : contOk3 b0 b1 ∧ isContByte b2) :
    utf8Scan (b0 :: b1 :: b2 :: rest3) =
      ((utf8Scan rest3).1 + 3, (utf8Scan rest3).2 + 1) := by
  rw [utf8Scan, if_neg h1, if_neg h2, if_neg h3, if_pos h4, utf8ScanThree,
    if_pos hc]

theorem utf8Scan_three_notcont (b0 b1 b2 : Nat) (rest3 : List Nat)
    (h1 : ¬ b0 < 128) (h2 : ¬ b0 < 194) (h3 : ¬ b0 < 224) (h4 : b0 < 240)
    (hc : ¬ (contOk3 b0 b1 ∧ isContByte b2)) :
    utf8Scan (b0 :: b1 :: b2 :: rest3) = (0, 0) := by
  rw [utf8Scan, if_neg h1, if_neg h2, if_neg h3, if_pos h4, utf8ScanThree,
    if_neg hc]

theorem utf8Scan_three_short1 (b0 : Nat) (h1 : ¬ b0 < 128) (h2 : ¬ b0 < 194)
    (h3 : ¬ b0 < 224) (h4 : b0 < 240) : utf8Scan [b0] = (0, 0) := by
  rw [utf8Scan, if_neg h1, if_neg h2, if_neg h3, if_pos h4]
  rfl

theorem utf8Scan_three_short2 (b0 b1 : Nat) (h1 : ¬ b0 < 128) (h2 : ¬ b0 < 194)
    (h3 : ¬ b0 < 224) (h4 : b0 < 240) : utf8Scan [b0, b1] = (0, 0) := by
  rw [utf8Scan, if_neg h1, if_neg h2, if_neg h3, if_pos h4]
  rfl

theorem utf8Scan_four (b0 b1 b2 b3 : Nat) (rest4 : List Nat) (h1 : ¬ b0 < 128)
    (h2 : ¬ b0 < 194) (h3 : ¬ b0 < 224) (h4 : ¬ b0 < 240) (h5 : b0 < 245)
    (hc : contOk4 b0 b1 ∧ isContByte b2 ∧ isContByte b3) :
    utf8Scan (b0 :: b1 :: b2 :: b3 :: rest4) =
      ((utf8Scan rest4).1 + 4, (utf8Scan rest4).2 + 1) := by
  rw [utf8Scan, if_neg h1, if_neg h2, if_neg h3, if_neg h4, if_pos h5,
    utf8ScanFour, if_pos hc]

theorem utf8Scan_four_notcont (b0 b1 b2 b3 : Nat) (rest4 : List Nat)
    (h1 : ¬ b0 < 128) (h2 : ¬ b0 < 194) (h3 : ¬ b0 < 224) (h4 : ¬ b0 < 240)
    (h5 : b0 < 245)
    (hc : ¬ (contOk4 b0 b1 ∧ isContByte b2 ∧ isContByte b3)) :
    utf8Scan (b0 :: b1 :: b2 :: b3 :: rest4) = (0, 0) := by
  rw [utf8Scan, if_neg h1, if_neg h2, if_neg h3, if_neg h4, if_pos h5,
    utf8ScanFour, if_neg hc]

theorem utf8Scan_four_short1 (b0 : Nat) (h1 : ¬ b0 < 128) (h2 : ¬ b0 < 194)
    (h3 : ¬ b0 < 224) (h4 : ¬ b0 < 240) (h5 : b0 < 245) :
    utf8Scan [b0] = (0, 0) := by
  rw [utf8Scan, if_neg h1, if_neg h2, if_neg h3, if_neg h4, if_pos h5]
  rfl

theorem utf8Scan_four_short2 (b0 b1 : Nat) (h1 : ¬ b0 < 128) (h2 : ¬ b0 < 194)
    (h3 : ¬ b0 < 224) (h4 : ¬ b0 < 240) (h5 : b0 < 245) :
    utf8Scan [b0, b1] = (0, 0) := by
  rw [utf8Scan, if_neg h1, if_neg h2, if_neg h3, if_neg h4, if_pos h5]
  rfl

theorem utf8Scan_four_short3 (b0 b1 b2 : Nat) (h1 : ¬ b0 < 128) (h2 : ¬ b0 < 194)
    (h3 : ¬ b0 < 224) (h4 : ¬ b0 < 240) (h5 : b0 < 245) :
    utf8Scan [b0, b1, b2] = (0, 0) := by
  rw [utf8Scan, if_neg h1, if_neg h2, if_neg h3, if_neg h4, if_pos h5]
  rfl

theorem utf8Scan_bad_high (b0 : Nat) (rest : List Nat) (h1 : ¬ b0 < 128)
    (h2 : ¬ b0 < 194) (h3 : ¬ b0 < 224) (h4 : ¬ b0 < 240) (h5 : ¬ b0 < 245) :
    utf8Scan (b0 :: rest) = (0, 0) := by
  rw [utf8Scan, if_neg h1, if_neg h2, if_neg h3, if_neg h4, if_neg h5]

theorem utf8Scan_take_valid (l : List Nat) :
    utf8Scan (l.take (utf8Scan l).1) = utf8Scan l := by
  have main : ∀ (m : Nat) (l : List Nat), l.length ≤ m →
      utf8Scan (l.take (utf8Scan l).1) = utf8Scan l := by
    intro m
    induction m with
    | zero =>
      intro l hl
      rw [List.eq_nil_of_length_eq_zero (Nat.le_zero.mp hl)]
      rfl
    | succ m ih =>
      intro l hl
      match l with
      | [] => rfl
      | b0 :: rest =>
        simp only [List.length_cons] at hl
        by_cases h1 : b0 < 128
        · rw [utf8Scan_ascii b0 rest h1, List.take_succ_cons,
            utf8Scan_ascii _ _ h1, ih rest (by omega)]
        · by_cases h2 : b0 < 194
          · rw [utf8Scan_bad_lead b0 rest h1 h2]
            rfl
          · by_cases h3 : b0 < 224
            · match rest with
              | [] =>
                rw [utf8Scan_two_short b0 h1 h2 h3]
                rfl
              | b1 :: rest2 =>
                simp only [List.length_cons] at hl
                by_cases hc : isContByte b1
                · rw [utf8Scan_two b0 b1 rest2 h1 h2 h3 hc,
                    show (utf8Scan rest2).1 + 2 = (utf8Scan rest2).1 + 1 + 1 from rfl,
                    List.take_succ_cons, List.take_succ_cons,
                    utf8Scan_two _ _ _ h1 h2 h3 hc, ih rest2 (by omega)]
                · rw [utf8Scan_two_notcont b0 b1 rest2 h1 h2 h3 hc]
                  rfl
            · by_cases h4 : b0 < 240
              · match rest with
                | [] =>
                  rw [utf8Scan_three_short1 b0 h1 h2 h3 h4]
                  rfl
                | [b1] =>
                  rw [utf8Scan_three_short2 b0 b1 h1 h2 h3 h4]
                  rfl
                | b1 :: b2 :: rest3 =>
                  simp only [List.length_cons] at hl
                  by_cases hc : contOk3 b0 b1 ∧ isContByte b2
                  · rw [utf8Scan_three b0 b1 b2 rest3 h1 h2 h3 h4 hc,
                      show (utf8Scan rest3).1 + 3 =
                        (utf8Scan rest3).1 + 1 + 1 + 1 from rfl,
                      List.take_succ_cons, List.take_succ_cons,
                      List.take_succ_cons,
                      utf8Scan_three _ _ _ _ h1 h2 h3 h4 hc,
                      ih rest3 (by omega)]
                  · rw [utf8Scan_three_notcont b0 b1 b2 rest3 h1 h2 h3 h4 hc]
                    rfl
              · by_cases h5 : b0 < 245
                · match rest with
                  | [] =>
                    rw [utf8Scan_four_short1 b0 h1 h2 h3 h4 h5]
                    rfl
                  | [b1] =>
                    rw [utf8Scan_four_short2 b0 b1 h1 h2 h3 h4 h5]
                    rfl
                  | [b1, b2] =>
                    rw [utf8Scan_four_short3 b0 b1 b2 h1 h2 h3 h4 h5]
                    rfl
                  | b1 :: b2 :: b3 :: rest4 =>
                    simp only [List.length_cons] at hl
                    by_cases hc : contOk4 b0 b1 ∧ isContByte b2 ∧ isContByte b3
                    · rw [utf8Scan_four b0 b1 b2 b3 rest4 h1 h2 h3 h4 h5 hc,
                        show (utf8Scan rest4).1 + 4 =
                          (utf8Scan rest4).1 + 1 + 1 + 1 + 1 from rfl,
                        List.take_succ_cons, List.take_succ_cons,
                        List.take_succ_cons, List.take_succ_cons,
                        utf8Scan_four _ _ _ _ _ h1 h2 h3 h4 h5 hc,
                        ih rest4 (by omega)]
                    · rw [utf8Scan_four_notcont b0 b1 b2 b3 rest4 h1 h2 h3 h4 h5 hc]
                      rfl
                · rw [utf8Scan_bad_high b0 rest h1 h2 h3 h4 h5]
                  rfl
  exact main l.length l (Nat.le_refl _)

theorem char_valid_nat (c : Char) :
    c.toNat < 55296 ∨ (57343 < c.toNat ∧ c.toNat < 1114112) := c.valid

theorem utf8Scan_encodeScalar (n : Nat)
    (hval : n < 55296 ∨ (57343 < n ∧ n < 1114112)) (rest : List Nat) :
    utf8Scan (utf8EncodeScalar n ++ rest) =
      ((utf8Scan rest).1 + (utf8EncodeScalar n).length,
       (utf8Scan rest).2 + 1) := by
  by_cases e1 : n < 128
  · rw [show utf8EncodeScalar n = [n] from by rw [utf8EncodeScalar, if_pos e1]]
    rw [List.cons_append, List.nil_append, utf8Scan_ascii n rest e1]
    rfl
  · by_cases e2 : n < 2048
    · rw [show utf8EncodeScalar n = [192 + n / 64, 128 + n % 64] from by
        rw [utf8EncodeScalar, if_neg e1, if_pos e2]]
      rw [List.cons_append, List.cons_append, List.nil_append]
      rw [utf8Scan_two _ _ _ (by omega) (by omega) (by omega)
        (by unfold isContByte; omega)]
      rfl
    · by_cases e3 : n < 65536
      · rw [show utf8EncodeScalar n =
            [224 + n / 4096, 128 + n / 64 % 64, 128 + n % 64] from by
          rw [utf8EncodeScalar, if_neg e1, if_neg e2, if_pos e3]]
        rw [List.cons_append, List.cons_append, List.cons_append,
          List.nil_append]
        rw [utf8Scan_three _ _ _ _ (by omega) (by omega) (by omega) (by omega)
          (by constructor
              · unfold contOk3; omega
              · unfold isContByte; omega)]
        rfl
      · have e4 : n < 1114112 := by omega
        rw [show utf8EncodeScalar n =
            [240 + n / 262144, 128 + n / 4096 % 64, 128 + n / 64 % 64,
             128 + n % 64] from by
          rw [utf8EncodeScalar, if_neg e1, if_neg e2, if_neg e3]]
        rw [List.cons_append, List.cons_append, List.cons_append,
          List.cons_append, List.nil_append]
        rw [utf8Scan_four _ _ _ _ _ (by omega) (by omega) (by omega) (by omega)
          (by omega)
          (by refine ⟨?_, ?_, ?_⟩
              · unfold contOk4; omega
              · unfold isContByte; omega
              · unfold isContByte; omega)]
        rfl

theorem utf8Scan_encodeScalar_partial (n : Nat)
    (hval : n < 55296 ∨ (57343 < n ∧ n < 1114112)) (k : Nat)
    (hk : k < (utf8EncodeScalar n).length) :
    utf8Scan ((utf8EncodeScalar n).take k) = (0, 0) := by
  by_cases e1 : n < 128
  · rw [show utf8EncodeScalar n = [n] from by
      rw [utf8EncodeScalar, if_pos e1]] at hk ⊢
    simp only [List.length_cons, List.length_nil] at hk
    interval_cases k
    rfl
  · by_cases e2 : n < 2048
    · rw [show utf8EncodeScalar n = [192 + n / 64, 128 + n % 64] from by
        rw [utf8EncodeScalar, if_neg e1, if_pos e2]] at hk ⊢
      simp only [List.length_cons, List.length_nil] at hk
      interval_cases k
      · rfl
      · rw [List.take_succ_cons, List.take_zero]
        exact utf8Scan_two_short _ (by omega) (by omega) (by omega)
    · by_cases e3 : n < 65536
      · rw [show utf8EncodeScalar n =
            [224 + n / 4096, 128 + n / 64 % 64, 128 + n % 64] from by
          rw [utf8EncodeScalar, if_neg e1, if_neg e2, if_pos e3]] at hk ⊢
        simp only [List.length_cons, List.length_nil] at hk
        interval_cases k
        · rfl
        · rw [List.take_succ_cons, List.take_zero]
          exact utf8Scan_three_short1 _ (by omega) (by omega) (by omega)
            (by omega)
        · rw [List.take_succ_cons, List.take_succ_cons, List.take_zero]
          exact utf8Scan_three_short2 _ _ (by omega) (by omega) (by omega)
            (by omega)
      · have e4 : n < 1114112 := by omega
        rw [show utf8EncodeScalar n =
            [240 + n / 262144, 128 + n / 4096 % 64, 128 + n / 64 % 64,
             128 + n % 64] from by
          rw [utf8EncodeScalar, if_neg e1, if_neg e2, if_neg e3]] at hk ⊢
        simp only [List.length_cons, List.length_nil] at hk
        interval_cases k
        · rfl
        · rw [List.take_succ_cons, List.take_zero]
          exact utf8Scan_four_short1 _ (by omega) (by omega) (by omega)
            (by omega) (by omega)
        · rw [List.take_succ_cons, List.take_succ_cons, List.take_zero]
          exact utf8Scan_four_short2 _ _ (by omega) (by omega) (by omega)
            (by omega) (by omega)
        · rw [List.take_succ_cons, List.take_succ_cons, List.take_succ_cons,
            List.take_zero]
          exact utf8Scan_four_short3 _ _ _ (by omega) (by omega) (by omega)
            (by omega) (by omega)

theorem utf8Scan_encodeChar (c : Char) (rest : List Nat) :
    utf8Scan (utf8EncodeChar c ++ rest) =
      ((utf8Scan rest).1 + (utf8EncodeChar c).length, (utf8Scan rest).2 + 1) :=
  utf8Scan_encodeScalar c.toNat (char_valid_nat c) rest

theorem utf8Scan_encodeChar_partial (c : Char) (k : Nat)
    (hk : k < (utf8EncodeChar c).length) :
    utf8Scan ((utf8EncodeChar c).take k) = (0, 0) :=
  utf8Scan_encodeScalar_partial c.toNat (char_valid_nat c) k hk

theorem text_write_eq_scan (text : List Char) (k : Nat) :
    text_io_wrapper_write text k = (utf8Scan ((utf8Encode text).take k)).2 := by
  simp only [text_io_wrapper_write]
  by_cases h : validUtf8 ((utf8Encode text).take k)
  · rw [if_pos h]
    rfl
  · rw [if_neg h]
    unfold utf8CountChars
    rw [utf8Scan_take_valid]

theorem scan_take_encode (text : List Char) (k : Nat)
    (h : k ≤ (utf8Encode text).length) :
    (utf8Scan ((utf8Encode text).take k)).2 = specCoveredCodepoints text k := by
  induction text generalizing k with
  | nil =>
    rw [show utf8Encode [] = [] from rfl, List.take_nil]
    rfl
  | cons c cs ih =>
    rw [show utf8Encode (c :: cs) = utf8EncodeChar c ++ utf8Encode cs from rfl,
      List.length_append] at h
    rw [show utf8Encode (c :: cs) = utf8EncodeChar c ++ utf8Encode cs from rfl]
    by_cases hk : (utf8EncodeChar c).length ≤ k
    · rw [List.take_append_eq_append_take, List.take_of_length_le hk,
        utf8Scan_encodeChar c, ih _ (by omega),
        specCoveredCodepoints, if_pos hk]
    · rw [List.take_append_of_le_length (by omega),
        utf8Scan_encodeChar_partial c k (by omega),
        specCoveredCodepoints, if_neg hk]

/-- C4: for every text and every byte count the inner stream reports
written (at most the length of the UTF-8 encoding of the text), the
text-layer write returns the number of codepoints whose complete UTF-8
encoding lies within that many bytes, truncating a partial trailing
codepoint to the last complete boundary. -/
theorem text_io_wrapper_write_counts_codepoints (text : List Char) (k : Nat)
    (h : k ≤ (utf8Encode text).length) :
    text_io_wrapper_write text k = specCoveredCodepoints text k := by
  rw [text_write_eq_scan, scan_take_encode text k h]

/-- C4 witness: a three-character text whose encoding is five bytes; when
all five bytes are written the call returns three, the codepoint count. -/
theorem text_io_wrapper_write_counts_codepoints_witness :
    5 ≤ (utf8Encode ['h', 'i', 'あ']).length ∧
    text_io_wrapper_write ['h', 'i', 'あ'] 5 = specCoveredCodepoints ['h', 'i', 'あ'] 5 ∧
    specCoveredCodepoints ['h', 'i', 'あ'] 5 = 3 :=
  ⟨by decide, text_io_wrapper_write_counts_codepoints ['h', 'i', 'あ'] 5 (by decide),
   by decide⟩

/-- C8 (amended): when the bytes from the position through the next
newline (or the end) are valid UTF-8, readline returns exactly those
bytes and advances the position by their number; the unrestricted claim
fails on invalid UTF-8, see the counterexample. -/
theorem bufferedio_readline_behavior (st : BufferedIo)
    (h : validUtf8 (specLineAt st.data st.position)) :
    BufferedIo.readline st =
      (some (specLineAt st.data st.position),
       ⟨st.data, st.position + (specLineAt st.data st.position).length⟩) := by
  simp only [specLineAt] at h
  simp only [BufferedIo.readline, bufferedio_remaining_eq_drop, specLineAt]
  rw [if_pos h]

/-- C8 witness: a buffer holding an ASCII byte, a newline and one more
byte: readline returns the first two bytes and advances the position to
two. -/
theorem bufferedio_readline_behavior_witness :
    validUtf8 (specLineAt [104, 10, 120] 0) ∧
    BufferedIo.readline ⟨[104, 10, 120], 0⟩ =
      (some (specLineAt [104, 10, 120] 0),
       ⟨[104, 10, 120], 0 + (specLineAt [104, 10, 120] 0).length⟩) :=
  ⟨by decide, bufferedio_readline_behavior ⟨[104, 10, 120], 0⟩ (by decide)⟩

/-- C8 counterexample: the claim says readline does not fail on any byte
contents; on the single byte 255 (invalid UTF-8) the cursor readline
reports failure (after advancing the cursor), and the BytesIO readline
surfaces it as an error. -/
theorem readline_invalid_utf8_counterexample :
    BufferedIo.readline ⟨[255], 0⟩ = (none, ⟨[255], 1⟩) ∧
    pybytesio_readline (some ⟨[255], 0⟩) =
      (Except.error "Error Performing Operation", some ⟨[255], 1⟩) :=
  ⟨rfl, rfl⟩

/-- C9 counterexample: for the parsed append mode the open factory does
not return an error value to the caller; it hits the unimplemented
panic. -/
theorem io_open_append_not_error_return :
    io_open_model ['a'] = OpenResult.panicked unimplemented_append_msg ∧
    (io_open_model ['a']).isErrValue = false :=
  ⟨rfl, rfl⟩

/-- C9 (amended): for every successfully parsed mode whose access value
is append, the open factory neither falls back to another decorator nor
returns an error value: it aborts through the unimplemented panic. -/
theorem io_open_append_panics (s mode typ : List Char)
    (hp : split_mode_string s = Except.ok (mode, typ))
    (ha : mode.head? = some 'a') :
    io_open_model s = OpenResult.panicked unimplemented_append_msg := by
  match mode, ha with
  | m :: rest, ha =>
    simp only [List.head?_cons, Option.some.injEq] at ha
    subst ha
    unfold io_open_model
    rw [hp]
    dsimp only
    rw [if_neg (show ¬ (Char.ofNat 97 = Char.ofNat 119) by decide),
      if_neg (show ¬ (Char.ofNat 97 = Char.ofNat 114) by decide)]

/-- C9 witness: the parsed mode a-plus has append access and the factory
panics on it. -/
theorem io_open_append_panics_witness :
    split_mode_string ['a', '+'] = Except.ok (['a', '+'], ['t']) ∧
    (['a', '+'] : List Char).head? = some 'a' ∧
    io_open_model ['a', '+'] = OpenResult.panicked unimplemented_append_msg :=
  ⟨rfl, rfl, io_open_append_panics ['a', '+'] ['a', '+'] ['t'] rfl rfl⟩

/-- C10 counterexample: the claim says any mode containing a plus gets
read-write access; the code looks only at the first character, so the
parsed modes r-plus, w-plus and a-plus carry no read-write flag (and
r-plus is plain read-only). -/
theorem compute_c_flag_plus_modes_counterexample :
    compute_c_flag ['r', '+'] = O_RDONLY ∧
    compute_c_flag ['r', '+'] &&& O_RDWR = 0 ∧
    compute_c_flag ['w', '+'] &&& O_RDWR = 0 ∧
    compute_c_flag ['a', '+'] &&& O_RDWR = 0 := by
  refine ⟨rfl, ?_, ?_, ?_⟩ <;> decide

/-- C10 (amended): the open flags depend only on the first character of
the mode: w gives write and create, x gives write, create and exclusive,
a gives append, a leading plus gives read-write, and anything else (in
particular the parsed modes starting with r, and the empty string) gives
read-only. -/
theorem compute_c_flag_first_char_only (rest : List Char) (c : Char)
    (hw : c ≠ 'w') (hx : c ≠ 'x') (ha : c ≠ 'a') (hp : c ≠ '+') :
    compute_c_flag ('w' :: rest) = (O_WRONLY ||| O_CREAT) ∧
    compute_c_flag ('x' :: rest) = (O_WRONLY ||| O_CREAT ||| O_EXCL) ∧
    compute_c_flag ('a' :: rest) = O_APPEND ∧
    compute_c_flag ('+' :: rest) = O_RDWR ∧
    compute_c_flag [] = O_RDONLY ∧
    compute_c_flag (c :: rest) = O_RDONLY := by
  refine ⟨rfl, rfl, rfl, rfl, rfl, ?_⟩
  unfold compute_c_flag
  dsimp only
  rw [if_neg hw, if_neg hx, if_neg ha, if_neg hp]

/-- C10 witness: at first character r with a plus following, the flags
are read-only, and the four fixed first characters give their flags. -/
theorem compute_c_flag_first_char_only_witness :
    compute_c_flag ['w', '+'] = (O_WRONLY ||| O_CREAT) ∧
    compute_c_flag ['x', '+'] = (O_WRONLY ||| O_CREAT ||| O_EXCL) ∧
    compute_c_flag ['a', '+'] = O_APPEND ∧
    compute_c_flag ['+', '+'] = O_RDWR ∧
    compute_c_flag [] = O_RDONLY ∧
    compute_c_flag ['r', '+'] = O_RDONLY :=
  compute_c_flag_first_char_only ['+'] 'r' (by decide) (by decide) (by decide)
    (by decide)
